import Mathlib

/-!
A shallow embedding of `scraper.py` (GitHub trending-repos screenshot bot):
the image compositing performed inside `capture_readme_screenshot`, the
SQLite-backed catalog operations `save_repo_to_db` and
`update_screenshot_path`, the ordered selector-fallback logic, and the
per-candidate driver loop, together with theorems checking the
specification's claims about them.  Line numbers in doc comments refer to
`scraper.py`.
-/

namespace Scraper

/-- PIL color modes relevant to the compositor.  Modes outside the five the
code inspects (CMYK, 1-bit, ...) are represented by their PIL mode string. -/
inductive Mode where
  | P
  | L
  | LA
  | RGB
  | RGBA
  | other (pilName : String)
  deriving DecidableEq, Repr

/-- Lines 217-227: normalization of the decoded image's mode before
compositing.  `P` and `LA` convert to `RGBA`, `L` converts to `RGB`, and
every other mode is left as is. -/
def convertMode : Mode → Mode
  | .P => .RGBA
  | .L => .RGB
  | .LA => .RGBA
  | m => m

/-- Lines 229-232: the canvas fill color is `(255, 255, 255)` unless the
(post-conversion) mode is `RGBA`, in which case it is `(255, 255, 255, 255)`.
Tuples are modelled as lists of channel values. -/
def bgColorFor (m : Mode) : List Nat :=
  if m = Mode.RGBA then [255, 255, 255, 255] else [255, 255, 255]

/-- What a successful `Image.open` yields, as far as the compositor looks at
it: `img.size` (line 207) and `img.mode` (line 217).  Dimensions are kept as
integers so that the `<= 0` check of line 209 is a genuine test. -/
structure DecodedImage where
  width : Int
  height : Int
  mode : Mode
  deriving DecidableEq, Repr

/-- The composited raster built in lines 213-255, described by the canvas the
code constructs: final dimensions, mode, fill color, the offset at which the
decoded image is pasted, and the crop box applied (if any). -/
structure CompositedImage where
  width : Nat
  height : Nat
  mode : Mode
  background : List Nat
  pasteX : Nat
  pasteY : Nat
  cropBox : Option (Nat × Nat × Nat × Nat)
  deriving DecidableEq, Repr

/-- Outcome of the dimension check plus compositing, lines 209-255. -/
inductive ComposeOutcome where
  | invalidDims
  | image (c : CompositedImage)
  deriving DecidableEq, Repr

/-- Line 213: `padding = 2`. -/
def padding : Nat := 2

/-- Lines 209-255 of `capture_readme_screenshot`: dimension check, mode
normalization, padded white canvas, paste at `(padding, 0)`, and the
conditional top-anchored crop to a 4:3 frame.  Python's
`int(new_width * 3 / 4)` truncates the exact float quotient toward zero,
which for the nonnegative values involved equals `Nat` division. -/
def composeDecoded (img : DecodedImage) : ComposeOutcome :=
  if img.width ≤ 0 ∨ img.height ≤ 0 then
    ComposeOutcome.invalidDims
  else
    let w := img.width.toNat
    let h := img.height.toNat
    let new_width := w + 2 * padding
    let current_mode := convertMode img.mode
    let bg_color := bgColorFor current_mode
    let target_height := new_width * 3 / 4
    if h > target_height then
      ComposeOutcome.image
        { width := new_width, height := target_height, mode := current_mode,
          background := bg_color, pasteX := padding, pasteY := 0,
          cropBox := some (0, 0, new_width, target_height) }
    else
      ComposeOutcome.image
        { width := new_width, height := h, mode := current_mode,
          background := bg_color, pasteX := padding, pasteY := 0,
          cropBox := none }

example : composeDecoded ⟨800, 1000, Mode.RGB⟩ =
    ComposeOutcome.image ⟨804, 603, Mode.RGB, [255, 255, 255], 2, 0,
      some (0, 0, 804, 603)⟩ := by decide

example : composeDecoded ⟨400, 200, Mode.RGB⟩ =
    ComposeOutcome.image ⟨404, 200, Mode.RGB, [255, 255, 255], 2, 0,
      none⟩ := by decide

/-- A row of the `repositories` table (lines 18-29).  `url` is the primary
key; the four enrichment columns are nullable. -/
structure Row where
  url : String
  name : String
  description_trending_page : String
  last_seen_trending : String
  stars : Option Int
  created_at : Option String
  twitter_handle : Option String
  screenshot_path : Option String
  deriving DecidableEq, Repr

/-- A discovery record as handed to `save_repo_to_db` (the dict built at
line 127). -/
structure RepoData where
  name : String
  url : String
  description : String
  deriving DecidableEq, Repr

/-- The table is modelled as a list of rows.  A scalar subquery
`SELECT f FROM repositories WHERE url = u` returns the field of the row with
that primary key, or NULL when the row is absent. -/
def selectField (db : List Row) (u : String) (f : Row → Option α) : Option α :=
  match db.find? (fun r => r.url == u) with
  | some r => f r
  | none => none

/-- Lines 34-57, `save_repo_to_db`: an `INSERT OR REPLACE` keyed on `url`.
SQLite evaluates the `VALUES` expressions (including the four self-referential
scalar subqueries) against the table as it stands, then deletes any row that
conflicts on the primary key and inserts the new row.  `now` stands for
`datetime.now().isoformat()` of line 38. -/
def save_repo_to_db (db : List Row) (repo_data : RepoData) (now : String) :
    List Row :=
  let newRow : Row :=
    { url := repo_data.url
      name := repo_data.name
      description_trending_page := repo_data.description
      last_seen_trending := now
      stars := selectField db repo_data.url Row.stars
      created_at := selectField db repo_data.url Row.created_at
      twitter_handle := selectField db repo_data.url Row.twitter_handle
      screenshot_path := selectField db repo_data.url Row.screenshot_path }
  db.filter (fun r => r.url != repo_data.url) ++ [newRow]

/-- Lines 59-72, `update_screenshot_path`: returns immediately when `path` is
falsy (the empty string), otherwise runs
`UPDATE repositories SET screenshot_path = ? WHERE url = ?`, which rewrites
exactly the `screenshot_path` column of the rows matching `url`. -/
def update_screenshot_path (db : List Row) (repo_url path : String) :
    List Row :=
  if path = "" then db
  else
    db.map (fun r =>
      if r.url == repo_url then { r with screenshot_path := some path } else r)

/-- Number of rows holding a given primary-key value. -/
def urlCount (db : List Row) (u : String) : Nat :=
  db.countP (fun r => r.url == u)

/-- ASCII reading of the regex class `[\w\-]`: letters, digits, underscore
and hyphen. -/
def isWordChar (c : Char) : Bool :=
  c.isAlphanum || c = '_' || c = '-'

/-- Replaces each maximal run of characters outside `[\w\-]` with a single
underscore; `wordBefore` is `true` when no such run is currently open. -/
def collapseNonWord (wordBefore : Bool) : List Char → List Char
  | [] => []
  | c :: rest =>
    if isWordChar c then c :: collapseNonWord true rest
    else if wordBefore then '_' :: collapseNonWord false rest
    else collapseNonWord false rest

/-- Line 159's fallback `re.sub(r'[^\w\-]+', '_', repo_url)`. -/
def sanitizeUrl (repo_url : String) : String :=
  String.mk (collapseNonWord true repo_url.data)

/-- Python's `str.split(sep)` for a one-character separator, over the
character list: the result always has one more group than there are
separator occurrences (so empty groups are kept, and splitting the empty
string yields one empty group). -/
def splitOnChar (sep : Char) : List Char → List (List Char)
  | [] => [[]]
  | c :: rest =>
    let r := splitOnChar sep rest
    if c = sep then [] :: r
    else
      match r with
      | [] => [[c]]
      | g :: gs => (c :: g) :: gs

/-- Line 158: `[part for part in repo_url.split('/') if part]` — the
nonempty slash-separated segments of the URL. -/
def urlSegments (repo_url : String) : List String :=
  ((splitOnChar '/' repo_url.data).filter (fun g => !g.isEmpty)).map String.mk

/-- Line 159: the screenshot filename slug.  `repo_parts[-2]` and
`repo_parts[-1]` are Python's negative indexing, i.e. the elements at
`len - 2` and `len - 1`. -/
def slugOf (repo_url : String) : String :=
  let repo_parts := urlSegments repo_url
  if 2 ≤ repo_parts.length then
    repo_parts.getD (repo_parts.length - 2) "" ++ "_" ++
      repo_parts.getD (repo_parts.length - 1) ""
  else
    sanitizeUrl repo_url

/-- Whether a string starts with the path separator. -/
def startsWithSlash (s : String) : Bool :=
  match s.data with
  | [] => false
  | c :: _ => c = '/'

/-- Whether a string ends with the path separator. -/
def endsWithSlash (s : String) : Bool :=
  match s.data.getLast? with
  | some c => c = '/'
  | none => false

/-- POSIX `os.path.join` on two components: an absolute second component
replaces the first; otherwise the two are joined with a separator unless the
first is empty or already ends with one. -/
def osPathJoin (a b : String) : String :=
  if startsWithSlash b then b
  else if a = "" then b
  else if endsWithSlash a then a ++ b
  else a ++ "/" ++ b

/-- Line 160: `os.path.join(output_dir, f"{repo_name}_readme_4x3.png")`. -/
def screenshotPathFor (output_dir repo_url : String) : String :=
  osPathJoin output_dir (slugOf repo_url ++ "_readme_4x3.png")

example : slugOf "https://github.com/owner/repo" = "owner_repo" := by decide

example : sanitizeUrl "https://github.com" = "https_github_com" := by decide

example : screenshotPathFor "screenshots" "https://github.com/owner/repo" =
    "screenshots/owner_repo_readme_4x3.png" := by decide

/-- Line 162-165: the three locator strategies, most specific first. -/
def readme_selector : String := "#readme article.markdown-body"

/-- Second locator strategy (line 163). -/
def fallback_selector : String := "article.markdown-body[itemprop=\x27text\x27]"

/-- Third locator strategy (line 164). -/
def alternative_selector : String := "div.markdown-body.entry-content"

/-- Line 165: `selectors_to_try`, in declared order. -/
def selectors_to_try : List String :=
  [readme_selector, fallback_selector, alternative_selector]

/-- Lines 179-188: try the selectors in order; each iteration waits for the
selector to reach the visible state, breaking out on the first success and
swallowing the per-selector timeout otherwise.  Returns the selector that
matched (if any) together with the list of selectors attempted, in order. -/
def findVisible (vis : String → Bool) : List String → Option String × List String
  | [] => (none, [])
  | s :: rest =>
    if vis s then (some s, [s])
    else
      let r := findVisible vis rest
      (r.1, s :: r.2)

/-- Python exceptions that the modelled events can raise inside the body of
`capture_readme_screenshot`. -/
inductive PyError where
  | timeoutError
  | nameError (missing : String)
  | imageProcessingError
  deriving DecidableEq, Repr

/-- Whether the exception class derives from `Exception`, i.e. is caught by
the `except Exception` handler of line 289.  All three modelled classes do
(`NameError` and playwright's `TimeoutError` both subclass `Exception`). -/
def isException : PyError → Bool
  | .timeoutError => true
  | .nameError _ => true
  | .imageProcessingError => true

/-- What `readme_element.screenshot()` hands to `Image.open`: either bytes
PIL cannot identify, or bytes decoding to an image with a size and a mode. -/
inductive RawBytes where
  | undecodable
  | decoded (img : DecodedImage)
  deriving DecidableEq, Repr

/-- The nondeterministic environment of one `capture_readme_screenshot`
call: whether `page.goto` finishes within its bound, which selectors become
visible within their per-selector wait, what the element screenshot decodes
to, and whether the canvas/paste/crop/save block of lines 234-261 succeeds. -/
structure CaptureEnv where
  navigationOk : Bool
  visible : String → Bool
  shot : RawBytes
  saveOk : Bool

/-- Outcome of the code inside the outer `try` (lines 157-287): the
exception escaping that region (if any), the value the region returns
otherwise, the files written, and the selectors attempted in order. -/
structure InnerOutcome where
  err : Option PyError
  ret : Option String
  files : List String
  tried : List String
  deriving Repr

/-- Lines 157-287 of `capture_readme_screenshot`, the body inside the outer
`try`.  Control flow, in order: navigation (a timeout raises), the selector
fallback loop, `Image.open` — whose failure raises `UnidentifiedImageError`,
upon which the `except UnidentifiedImageError` clause of line 202 itself
raises `NameError` because that name is never imported — the dimension
check, and the compositing/save block whose failures are caught at line 263
(leaving `saved_path` as `None`). -/
def captureInner (env : CaptureEnv) (repo_url output_dir : String) :
    InnerOutcome :=
  let screenshot_path := screenshotPathFor output_dir repo_url
  if !env.navigationOk then
    { err := some PyError.timeoutError, ret := none, files := [], tried := [] }
  else
    let found := findVisible env.visible selectors_to_try
    match found.1 with
    | none =>
      { err := none, ret := none, files := [], tried := found.2 }
    | some _ =>
      match env.shot with
      | RawBytes.undecodable =>
        { err := some (PyError.nameError "UnidentifiedImageError"),
          ret := none, files := [], tried := found.2 }
      | RawBytes.decoded img =>
        match composeDecoded img with
        | ComposeOutcome.invalidDims =>
          { err := none, ret := none, files := [], tried := found.2 }
        | ComposeOutcome.image _ =>
          if env.saveOk then
            { err := none, ret := some screenshot_path,
              files := [screenshot_path], tried := found.2 }
          else
            { err := none, ret := none, files := [], tried := found.2 }

/-- What one `capture_readme_screenshot` call looks like to its caller:
returned value, files written, selectors attempted, and any exception
propagating out of the call. -/
structure CaptureResult where
  returned : Option String
  files : List String
  tried : List String
  escaped : Option PyError
  deriving Repr

/-- `capture_readme_screenshot` (lines 142-301): the body wrapped in the
outer `try`/`except Exception` of line 289, which converts every
`Exception`-derived error into a logged `return None`. -/
def capture (env : CaptureEnv) (repo_url output_dir : String) :
    CaptureResult :=
  let o := captureInner env repo_url output_dir
  match o.err with
  | some e =>
    if isException e then
      { returned := none, files := o.files, tried := o.tried, escaped := none }
    else
      { returned := none, files := o.files, tried := o.tried,
        escaped := some e }
  | none =>
    { returned := o.ret, files := o.files, tried := o.tried, escaped := none }

/-- The driver loop of lines 326-338: for each candidate in order, capture
its README screenshot and, when a path comes back, record it in the catalog.
Returns the final catalog and the per-candidate outcomes, in order. -/
def processRepos (output_dir : String) :
    List (String × CaptureEnv) → List Row → List Row × List (Option String)
  | [], db => (db, [])
  | (url, env) :: rest, db =>
    let r := (capture env url output_dir).returned
    let db2 :=
      match r with
      | some p => update_screenshot_path db url p
      | none => db
    let next := processRepos output_dir rest db2
    (next.1, r :: next.2)

/-- Characterization of `composeDecoded` on images with positive
dimensions. -/
theorem composeDecoded_pos (w h : Int) (m : Mode) (hw : 0 < w) (hh : 0 < h) :
    composeDecoded ⟨w, h, m⟩ =
      (if h.toNat > (w.toNat + 2 * padding) * 3 / 4 then
        ComposeOutcome.image
          ⟨w.toNat + 2 * padding, (w.toNat + 2 * padding) * 3 / 4,
            convertMode m, bgColorFor (convertMode m), padding, 0,
            some (0, 0, w.toNat + 2 * padding, (w.toNat + 2 * padding) * 3 / 4)⟩
      else
        ComposeOutcome.image
          ⟨w.toNat + 2 * padding, h.toNat, convertMode m,
            bgColorFor (convertMode m), padding, 0, none⟩) := by
  have hcond : ¬((⟨w, h, m⟩ : DecodedImage).width ≤ 0 ∨
      (⟨w, h, m⟩ : DecodedImage).height ≤ 0) := by
    push_neg
    exact ⟨hw, hh⟩
  unfold composeDecoded
  rw [if_neg hcond]

/-- C1: for every successfully decoded capture with positive dimensions and
padding 2, the composited output is exactly `original_width + 2 * padding`
wide; with `target_height = (new_width * 3) / 4` rounded down, the output is
`target_height` tall via a top-anchored crop `(0, 0, new_width,
target_height)` when `original_height > target_height`, and keeps the
original height (no crop, no upscaling) otherwise. -/
theorem c1_composited_dimensions (w h : Int) (m : Mode)
    (hw : 0 < w) (hh : 0 < h) :
    ∃ c : CompositedImage,
      composeDecoded ⟨w, h, m⟩ = ComposeOutcome.image c ∧
      c.width = w.toNat + 2 * padding ∧
      (h.toNat > (w.toNat + 2 * padding) * 3 / 4 →
        c.height = (w.toNat + 2 * padding) * 3 / 4 ∧
        c.cropBox = some (0, 0, w.toNat + 2 * padding,
          (w.toNat + 2 * padding) * 3 / 4)) ∧
      (¬h.toNat > (w.toNat + 2 * padding) * 3 / 4 →
        c.height = h.toNat ∧ c.cropBox = none) := by
  rw [composeDecoded_pos w h m hw hh]
  by_cases hcrop : h.toNat > (w.toNat + 2 * padding) * 3 / 4
  · rw [if_pos hcrop]
    exact ⟨_, rfl, rfl, fun _ => ⟨rfl, rfl⟩, fun hc => absurd hcrop hc⟩
  · rw [if_neg hcrop]
    exact ⟨_, rfl, rfl, fun hc => absurd hc hcrop, fun _ => ⟨rfl, rfl⟩⟩

/-- Witness for C1 at the two inputs named by the claim: 800x1000 composites
to 804x603 (cropped) and 400x200 composites to 404x200 (uncropped). -/
theorem c1_composited_dimensions_witness :
    (∃ c : CompositedImage,
      composeDecoded ⟨800, 1000, Mode.RGB⟩ = ComposeOutcome.image c ∧
      c.width = 804 ∧ c.height = 603 ∧
      c.cropBox = some (0, 0, 804, 603)) ∧
    (∃ c : CompositedImage,
      composeDecoded ⟨400, 200, Mode.RGB⟩ = ComposeOutcome.image c ∧
      c.width = 404 ∧ c.height = 200 ∧ c.cropBox = none) := by
  constructor
  · obtain ⟨c, hc, hwidth, hcrop, -⟩ :=
      c1_composited_dimensions 800 1000 Mode.RGB (by decide) (by decide)
    obtain ⟨hht, hbox⟩ := hcrop (by decide)
    exact ⟨c, hc, hwidth, hht, hbox⟩
  · obtain ⟨c, hc, hwidth, -, hkeep⟩ :=
      c1_composited_dimensions 400 200 Mode.RGB (by decide) (by decide)
    obtain ⟨hht, hbox⟩ := hkeep (by decide)
    exact ⟨c, hc, hwidth, hht, hbox⟩

/-- C8: before compositing, palette images convert to RGBA, grayscale to
RGB, grayscale-with-alpha to RGBA, while RGB and RGBA stay unchanged; the
canvas fill is opaque white, `(255, 255, 255, 255)` in the alpha-bearing
mode and `(255, 255, 255)` otherwise. -/
theorem c8_mode_normalization (w h : Int) (hw : 0 < w) (hh : 0 < h) :
    (∀ m : Mode, ∃ c : CompositedImage,
      composeDecoded ⟨w, h, m⟩ = ComposeOutcome.image c ∧
      c.mode = convertMode m ∧ c.background = bgColorFor (convertMode m)) ∧
    convertMode Mode.P = Mode.RGBA ∧
    convertMode Mode.L = Mode.RGB ∧
    convertMode Mode.LA = Mode.RGBA ∧
    convertMode Mode.RGB = Mode.RGB ∧
    convertMode Mode.RGBA = Mode.RGBA ∧
    bgColorFor Mode.RGBA = [255, 255, 255, 255] ∧
    (∀ m : Mode, m ≠ Mode.RGBA → bgColorFor m = [255, 255, 255]) := by
  refine ⟨?_, rfl, rfl, rfl, rfl, rfl, rfl, ?_⟩
  · intro m
    rw [composeDecoded_pos w h m hw hh]
    by_cases hcrop : h.toNat > (w.toNat + 2 * padding) * 3 / 4
    · rw [if_pos hcrop]
      exact ⟨_, rfl, rfl, rfl⟩
    · rw [if_neg hcrop]
      exact ⟨_, rfl, rfl, rfl⟩
  · intro m hm
    unfold bgColorFor
    rw [if_neg hm]

/-- Witness for C8 at a concrete positive-size image of each relevant
mode. -/
theorem c8_mode_normalization_witness :
    (∃ c : CompositedImage,
      composeDecoded ⟨10, 10, Mode.P⟩ = ComposeOutcome.image c ∧
      c.mode = Mode.RGBA ∧ c.background = [255, 255, 255, 255]) ∧
    bgColorFor Mode.L = [255, 255, 255] := by
  constructor
  · obtain ⟨c, hc, hmode, hbg⟩ :=
      (c8_mode_normalization 10 10 (by decide) (by decide)).1 Mode.P
    exact ⟨c, hc, hmode, hbg⟩
  · exact (c8_mode_normalization 10 10 (by decide) (by decide)).2.2.2.2.2.2.2
      Mode.L (by decide)

/-- C10: a decoded image whose mode is none of `P`, `L`, `LA` is never
converted — the canvas is created in the image's own mode, with fill
`(255, 255, 255)` unless that mode is `RGBA`, in which case
`(255, 255, 255, 255)`; this covers modes outside the five inspected ones,
such as CMYK. -/
theorem c10_unlisted_modes_unconverted (w h : Int) (m : Mode)
    (hw : 0 < w) (hh : 0 < h)
    (hP : m ≠ Mode.P) (hL : m ≠ Mode.L) (hLA : m ≠ Mode.LA) :
    convertMode m = m ∧
    ∃ c : CompositedImage,
      composeDecoded ⟨w, h, m⟩ = ComposeOutcome.image c ∧
      c.mode = m ∧
      c.background =
        (if m = Mode.RGBA then [255, 255, 255, 255] else [255, 255, 255]) := by
  have hconv : convertMode m = m := by
    cases m with
    | P => exact absurd rfl hP
    | L => exact absurd rfl hL
    | LA => exact absurd rfl hLA
    | RGB => rfl
    | RGBA => rfl
    | other s => rfl
  refine ⟨hconv, ?_⟩
  rw [composeDecoded_pos w h m hw hh]
  by_cases hcrop : h.toNat > (w.toNat + 2 * padding) * 3 / 4
  · rw [if_pos hcrop]
    exact ⟨_, rfl, hconv, by rw [bgColorFor, hconv]⟩
  · rw [if_neg hcrop]
    exact ⟨_, rfl, hconv, by rw [bgColorFor, hconv]⟩

/-- Witness for C10 at a CMYK image: the canvas keeps mode CMYK and a
three-channel white fill. -/
theorem c10_unlisted_modes_unconverted_witness :
    convertMode (Mode.other "CMYK") = Mode.other "CMYK" ∧
    ∃ c : CompositedImage,
      composeDecoded ⟨10, 10, Mode.other "CMYK"⟩ = ComposeOutcome.image c ∧
      c.mode = Mode.other "CMYK" ∧ c.background = [255, 255, 255] := by
  obtain ⟨hconv, c, hc, hmode, hbg⟩ :=
    c10_unlisted_modes_unconverted 10 10 (Mode.other "CMYK")
      (by decide) (by decide) (by decide) (by decide) (by decide)
  exact ⟨hconv, c, hc, hmode, by simpa using hbg⟩

/-- Rows filtered to a different key never satisfy a `find?` on that key. -/
theorem find?_filter_ne_eq_none (db : List Row) (u : String) :
    (db.filter (fun r => r.url != u)).find? (fun r => r.url == u) = none := by
  rw [List.find?_eq_none]
  intro r hr
  have h2 := (List.mem_filter.mp hr).2
  simp only [bne_iff_ne, ne_eq] at h2
  simp [h2]

/-- C2: an upsert for a url that already has a stored row replaces `name`,
`description_trending_page` and `last_seen_trending` with the incoming
values while carrying over the stored `stars`, `created_at`,
`twitter_handle` and `screenshot_path` verbatim; the row count for that url
is one after every call; for a url with no prior row the four enrichment
fields are left null; rows with other urls are untouched. -/
theorem c2_upsert_preserves_enrichment (db : List Row) (repo_data : RepoData)
    (now : String) :
    urlCount (save_repo_to_db db repo_data now) repo_data.url = 1 ∧
    (∀ r : Row, db.find? (fun q => q.url == repo_data.url) = some r →
      (save_repo_to_db db repo_data now).find?
          (fun q => q.url == repo_data.url) =
        some { url := repo_data.url, name := repo_data.name,
               description_trending_page := repo_data.description,
               last_seen_trending := now, stars := r.stars,
               created_at := r.created_at,
               twitter_handle := r.twitter_handle,
               screenshot_path := r.screenshot_path }) ∧
    (db.find? (fun q => q.url == repo_data.url) = none →
      (save_repo_to_db db repo_data now).find?
          (fun q => q.url == repo_data.url) =
        some { url := repo_data.url, name := repo_data.name,
               description_trending_page := repo_data.description,
               last_seen_trending := now, stars := none, created_at := none,
               twitter_handle := none, screenshot_path := none }) ∧
    (∀ q ∈ db, q.url ≠ repo_data.url →
      q ∈ save_repo_to_db db repo_data now) := by
  refine ⟨?_, ?_, ?_, ?_⟩
  · unfold urlCount save_repo_to_db
    rw [List.countP_append]
    have hz : (db.filter (fun r => r.url != repo_data.url)).countP
        (fun r => r.url == repo_data.url) = 0 := by
      rw [List.countP_eq_zero]
      intro r hr
      have h2 := (List.mem_filter.mp hr).2
      simp only [bne_iff_ne, ne_eq] at h2
      simp [h2]
    rw [hz]
    simp [List.countP_cons]
  · intro r hfind
    unfold save_repo_to_db
    rw [List.find?_append, find?_filter_ne_eq_none, Option.none_or]
    simp [selectField, hfind]
  · intro hfind
    unfold save_repo_to_db
    rw [List.find?_append, find?_filter_ne_eq_none, Option.none_or]
    simp [selectField, hfind]
  · intro q hq hqurl
    unfold save_repo_to_db
    exact List.mem_append_left _ (List.mem_filter.mpr ⟨hq, by simp [hqurl]⟩)

/-- Witness for C2: upserting over a stored row keeps its non-null
enrichment values and leaves exactly one row for the key. -/
theorem c2_upsert_preserves_enrichment_witness :
    (save_repo_to_db
        [⟨"https://github.com/o/r", "o/r", "old desc", "t0",
          some 5, some "2020-01-01", some "handle", some "shots/o_r.png"⟩]
        ⟨"o/r", "https://github.com/o/r", "new desc"⟩ "t1").find?
        (fun q => q.url == "https://github.com/o/r") =
      some ⟨"https://github.com/o/r", "o/r", "new desc", "t1",
        some 5, some "2020-01-01", some "handle", some "shots/o_r.png"⟩ ∧
    urlCount
      (save_repo_to_db
        [⟨"https://github.com/o/r", "o/r", "old desc", "t0",
          some 5, some "2020-01-01", some "handle", some "shots/o_r.png"⟩]
        ⟨"o/r", "https://github.com/o/r", "new desc"⟩ "t1")
      "https://github.com/o/r" = 1 := by
  constructor
  · exact (c2_upsert_preserves_enrichment
      [⟨"https://github.com/o/r", "o/r", "old desc", "t0",
        some 5, some "2020-01-01", some "handle", some "shots/o_r.png"⟩]
      ⟨"o/r", "https://github.com/o/r", "new desc"⟩ "t1").2.1
      ⟨"https://github.com/o/r", "o/r", "old desc", "t0",
        some 5, some "2020-01-01", some "handle", some "shots/o_r.png"⟩
      (by decide)
  · exact (c2_upsert_preserves_enrichment
      [⟨"https://github.com/o/r", "o/r", "old desc", "t0",
        some 5, some "2020-01-01", some "handle", some "shots/o_r.png"⟩]
      ⟨"o/r", "https://github.com/o/r", "new desc"⟩ "t1").1

/-- C7: `update_screenshot_path` touches only the `screenshot_path` column
of the rows keyed by `url`, leaves every other row and every other column
verbatim, and is a complete no-op when the path is empty or no row carries
that url. -/
theorem c7_update_screenshot_path_frame (db : List Row) (u p : String) :
    (p = "" → update_screenshot_path db u p = db) ∧
    ((∀ r ∈ db, r.url ≠ u) → update_screenshot_path db u p = db) ∧
    (update_screenshot_path db u p).length = db.length ∧
    (∀ (i : Nat) (r : Row), db[i]? = some r → r.url ≠ u →
      (update_screenshot_path db u p)[i]? = some r) ∧
    (∀ (i : Nat) (r : Row), db[i]? = some r → r.url = u → p ≠ "" →
      (update_screenshot_path db u p)[i]? =
        some { r with screenshot_path := some p }) := by
  refine ⟨?_, ?_, ?_, ?_, ?_⟩
  · intro hp
    simp [update_screenshot_path, hp]
  · intro hmiss
    by_cases hp : p = ""
    · simp [update_screenshot_path, hp]
    · unfold update_screenshot_path
      rw [if_neg hp]
      have hcongr : ∀ r ∈ db,
          (if r.url == u then { r with screenshot_path := some p } else r) =
            id r := by
        intro r hr
        simp [hmiss r hr]
      rw [List.map_congr_left hcongr, List.map_id]
  · by_cases hp : p = ""
    · simp [update_screenshot_path, hp]
    · simp [update_screenshot_path, hp]
  · intro i r hi hne
    by_cases hp : p = ""
    · simp [update_screenshot_path, hp, hi]
    · unfold update_screenshot_path
      rw [if_neg hp, List.getElem?_map, hi]
      simp [hne]
  · intro i r hi hurl hp
    unfold update_screenshot_path
    rw [if_neg hp, List.getElem?_map, hi]
    simp [hurl]

/-- Witness for C7: a concrete two-row store where the matching row gets
exactly its `screenshot_path` replaced, the other row is untouched, and an
empty path changes nothing. -/
theorem c7_update_screenshot_path_frame_witness :
    (update_screenshot_path
        [⟨"u1", "n1", "d1", "t1", some 3, none, none, none⟩,
         ⟨"u2", "n2", "d2", "t2", none, none, none, some "old.png"⟩]
        "u2" "")
      = [⟨"u1", "n1", "d1", "t1", some 3, none, none, none⟩,
         ⟨"u2", "n2", "d2", "t2", none, none, none, some "old.png"⟩] ∧
    (update_screenshot_path
        [⟨"u1", "n1", "d1", "t1", some 3, none, none, none⟩,
         ⟨"u2", "n2", "d2", "t2", none, none, none, some "old.png"⟩]
        "u2" "new.png")[0]?
      = some ⟨"u1", "n1", "d1", "t1", some 3, none, none, none⟩ ∧
    (update_screenshot_path
        [⟨"u1", "n1", "d1", "t1", some 3, none, none, none⟩,
         ⟨"u2", "n2", "d2", "t2", none, none, none, some "old.png"⟩]
        "u2" "new.png")[1]?
      = some ⟨"u2", "n2", "d2", "t2", none, none, none, some "new.png"⟩ := by
  refine ⟨?_, ?_, ?_⟩
  · exact (c7_update_screenshot_path_frame
      [⟨"u1", "n1", "d1", "t1", some 3, none, none, none⟩,
       ⟨"u2", "n2", "d2", "t2", none, none, none, some "old.png"⟩]
      "u2" "").1 rfl
  · exact (c7_update_screenshot_path_frame
      [⟨"u1", "n1", "d1", "t1", some 3, none, none, none⟩,
       ⟨"u2", "n2", "d2", "t2", none, none, none, some "old.png"⟩]
      "u2" "new.png").2.2.2.1 0
      ⟨"u1", "n1", "d1", "t1", some 3, none, none, none⟩ (by decide)
      (by decide)
  · exact (c7_update_screenshot_path_frame
      [⟨"u1", "n1", "d1", "t1", some 3, none, none, none⟩,
       ⟨"u2", "n2", "d2", "t2", none, none, none, some "old.png"⟩]
      "u2" "new.png").2.2.2.2 1
      ⟨"u2", "n2", "d2", "t2", none, none, none, some "old.png"⟩ (by decide)
      rfl (by decide)

/-- When no selector in the list becomes visible, the fallback loop tries
every one of them, in order, and finds nothing. -/
theorem findVisible_all_fail (vis : String → Bool) :
    ∀ l : List String, (∀ s ∈ l, vis s = false) →
      findVisible vis l = (none, l) := by
  intro l
  induction l with
  | nil => intro _; rfl
  | cons a rest ih =>
    intro h
    have ha : vis a = false := h a (List.mem_cons_self a rest)
    have hrest := ih (fun s hs => h s (List.mem_cons_of_mem a hs))
    simp [findVisible, ha, hrest]

/-- When the selector at position `k` is the first visible one, the fallback
loop stops there: it returns that selector and attempts exactly the first
`k + 1` selectors, in order. -/
theorem findVisible_first_success (vis : String → Bool) :
    ∀ (l : List String) (k : Nat) (hk : k < l.length),
      (∀ (j : Nat) (hj : j < l.length), j < k → vis (l.get ⟨j, hj⟩) = false) →
      vis (l.get ⟨k, hk⟩) = true →
      findVisible vis l = (some (l.get ⟨k, hk⟩), l.take (k + 1)) := by
  intro l
  induction l with
  | nil =>
    intro k hk
    exact absurd hk (by simp)
  | cons a rest ih =>
    intro k hk hbefore hvis
    cases k with
    | zero =>
      have ha : vis a = true := hvis
      simp [findVisible, ha]
    | succ k =>
      have ha : vis a = false := hbefore 0 (by simp) (Nat.succ_pos k)
      have hrest := ih k (by simpa using hk)
        (fun j hj hjk => hbefore (j + 1) (by simpa using hj)
          (Nat.succ_lt_succ hjk))
        hvis
      simp [findVisible, ha, hrest]

/-- C5: the locator strategies are attempted strictly in declared order,
each with its own visibility wait; the first visible one is used and no
later strategy is attempted, and when every strategy fails the capture
returns the failure value (`None`), having written no file and raised
nothing past the call. -/
theorem c5_selector_order (env : CaptureEnv) (repo_url output_dir : String) :
    (∀ (k : Nat) (hk : k < selectors_to_try.length),
      (∀ (j : Nat) (hj : j < selectors_to_try.length), j < k →
        env.visible (selectors_to_try.get ⟨j, hj⟩) = false) →
      env.visible (selectors_to_try.get ⟨k, hk⟩) = true →
      findVisible env.visible selectors_to_try =
        (some (selectors_to_try.get ⟨k, hk⟩), selectors_to_try.take (k + 1))) ∧
    (env.navigationOk = true →
      (capture env repo_url output_dir).tried =
        (findVisible env.visible selectors_to_try).2) ∧
    ((∀ s ∈ selectors_to_try, env.visible s = false) →
      env.navigationOk = true →
      capture env repo_url output_dir =
        { returned := none, files := [], tried := selectors_to_try,
          escaped := none }) := by
  refine ⟨?_, ?_, ?_⟩
  · intro k hk hbefore hvis
    exact findVisible_first_success env.visible selectors_to_try k hk
      hbefore hvis
  · intro hnav
    rcases hf : findVisible env.visible selectors_to_try with ⟨ro, tl⟩
    cases ro with
    | none => simp [capture, captureInner, hnav, hf]
    | some s =>
      cases hsh : env.shot with
      | undecodable => simp [capture, captureInner, hnav, hf, hsh, isException]
      | decoded img =>
        cases hcd : composeDecoded img with
        | invalidDims => simp [capture, captureInner, hnav, hf, hsh, hcd]
        | image c =>
          by_cases hs : env.saveOk
          · simp [capture, captureInner, hnav, hf, hsh, hcd, hs]
          · simp [capture, captureInner, hnav, hf, hsh, hcd, hs]
  · intro hfail hnav
    have hf := findVisible_all_fail env.visible selectors_to_try hfail
    simp [capture, captureInner, hnav, hf]

/-- Witness for C5: a page where only the second selector is visible makes
the loop stop after the second attempt, and a page where none is visible
makes the capture a soft failure after all three attempts. -/
theorem c5_selector_order_witness :
    findVisible (fun s => s == fallback_selector) selectors_to_try =
      (some fallback_selector, [readme_selector, fallback_selector]) ∧
    capture ⟨true, fun _ => false, RawBytes.undecodable, true⟩ "u" "shots" =
      { returned := none, files := [], tried := selectors_to_try,
        escaped := none } := by
  constructor
  · have h := (c5_selector_order
      ⟨true, fun s => s == fallback_selector, RawBytes.undecodable, true⟩
      "u" "shots").1 1 (by decide)
      (by
        intro j hj hj1
        have hj0 : j = 0 := by omega
        subst hj0
        exact rfl)
      (by exact rfl)
    simpa using h
  · exact (c5_selector_order
      ⟨true, fun _ => false, RawBytes.undecodable, true⟩ "u" "shots").2.2
      (fun s _ => rfl) rfl

/-- C3: bytes that PIL cannot decode never produce a file and surface as the
per-call failure value, with no exception escaping the capture call.  (In
the code the `except UnidentifiedImageError` clause of line 202 names an
identifier that is never imported, so the decode failure reaches the outer
`except Exception` handler as a `NameError`; the caller still observes
`None`, no file, and no exception.) -/
theorem c3_undecodable_is_soft_failure (env : CaptureEnv)
    (repo_url output_dir : String) (hshot : env.shot = RawBytes.undecodable) :
    (capture env repo_url output_dir).returned = none ∧
    (capture env repo_url output_dir).files = [] ∧
    (capture env repo_url output_dir).escaped = none := by
  by_cases hnav : env.navigationOk
  · rcases hf : findVisible env.visible selectors_to_try with ⟨ro, tl⟩
    cases ro with
    | none => simp [capture, captureInner, hnav, hf]
    | some s => simp [capture, captureInner, hnav, hf, hshot, isException]
  · simp [capture, captureInner, hnav, isException]

/-- Witness for C3: a capture that navigates, finds the region, but receives
undecodable bytes. -/
theorem c3_undecodable_is_soft_failure_witness :
    (capture ⟨true, fun _ => true, RawBytes.undecodable, true⟩
        "https://github.com/o/r" "shots").returned = none ∧
    (capture ⟨true, fun _ => true, RawBytes.undecodable, true⟩
        "https://github.com/o/r" "shots").files = [] ∧
    (capture ⟨true, fun _ => true, RawBytes.undecodable, true⟩
        "https://github.com/o/r" "shots").escaped = none :=
  c3_undecodable_is_soft_failure
    ⟨true, fun _ => true, RawBytes.undecodable, true⟩
    "https://github.com/o/r" "shots" rfl

/-- C4: a decoded capture with nonpositive width or height makes the compose
step report invalid dimensions, and the capture call writes no file and
returns the failure value. -/
theorem c4_nonpositive_dims_rejected (env : CaptureEnv)
    (repo_url output_dir : String) (img : DecodedImage)
    (hshot : env.shot = RawBytes.decoded img)
    (hdim : img.width ≤ 0 ∨ img.height ≤ 0) :
    composeDecoded img = ComposeOutcome.invalidDims ∧
    (capture env repo_url output_dir).files = [] ∧
    (capture env repo_url output_dir).returned = none ∧
    (capture env repo_url output_dir).escaped = none := by
  have hcomp : composeDecoded img = ComposeOutcome.invalidDims := by
    unfold composeDecoded
    rw [if_pos hdim]
  refine ⟨hcomp, ?_⟩
  by_cases hnav : env.navigationOk
  · rcases hf : findVisible env.visible selectors_to_try with ⟨ro, tl⟩
    cases ro with
    | none => simp [capture, captureInner, hnav, hf]
    | some s => simp [capture, captureInner, hnav, hf, hshot, hcomp]
  · simp [capture, captureInner, hnav, isException]

/-- Witness for C4: a zero-width decoded capture. -/
theorem c4_nonpositive_dims_rejected_witness :
    composeDecoded ⟨0, 5, Mode.RGB⟩ = ComposeOutcome.invalidDims ∧
    (capture ⟨true, fun _ => true, RawBytes.decoded ⟨0, 5, Mode.RGB⟩, true⟩
        "https://github.com/o/r" "shots").files = [] ∧
    (capture ⟨true, fun _ => true, RawBytes.decoded ⟨0, 5, Mode.RGB⟩, true⟩
        "https://github.com/o/r" "shots").returned = none ∧
    (capture ⟨true, fun _ => true, RawBytes.decoded ⟨0, 5, Mode.RGB⟩, true⟩
        "https://github.com/o/r" "shots").escaped = none :=
  c4_nonpositive_dims_rejected
    ⟨true, fun _ => true, RawBytes.decoded ⟨0, 5, Mode.RGB⟩, true⟩
    "https://github.com/o/r" "shots" ⟨0, 5, Mode.RGB⟩ rfl
    (Or.inl (by decide))

/-- Every exception the modelled events can raise inside the call body is
caught by the outer handler, so nothing escapes a capture call. -/
theorem capture_escaped_none (env : CaptureEnv) (repo_url output_dir : String) :
    (capture env repo_url output_dir).escaped = none := by
  rcases he : (captureInner env repo_url output_dir).err with _ | e
  · simp [capture, he]
  · cases e <;> simp [capture, he, isException]

/-- The value a capture call returns is either the failure value or the
deterministic target path. -/
theorem capture_returned_cases (env : CaptureEnv)
    (repo_url output_dir : String) :
    (capture env repo_url output_dir).returned = none ∨
    (capture env repo_url output_dir).returned =
      some (screenshotPathFor output_dir repo_url) := by
  by_cases hnav : env.navigationOk
  · rcases hf : findVisible env.visible selectors_to_try with ⟨ro, tl⟩
    cases ro with
    | none => left; simp [capture, captureInner, hnav, hf]
    | some s =>
      cases hsh : env.shot with
      | undecodable =>
        left
        simp [capture, captureInner, hnav, hf, hsh, isException]
      | decoded img =>
        cases hcd : composeDecoded img with
        | invalidDims => left; simp [capture, captureInner, hnav, hf, hsh, hcd]
        | image c =>
          by_cases hs : env.saveOk
          · right; simp [capture, captureInner, hnav, hf, hsh, hcd, hs]
          · left; simp [capture, captureInner, hnav, hf, hsh, hcd, hs]
  · left
    simp [capture, captureInner, hnav, isException]

/-- C6: every capture call resolves to a path or the per-call failure value
with no exception propagating out, and the driver loop processes every
candidate: the outcome recorded for each candidate is exactly its own
capture's result, no matter how the captures of earlier candidates
failed. -/
theorem c6_failures_isolated (env : CaptureEnv) (repo_url output_dir : String)
    (items : List (String × CaptureEnv)) (db : List Row) :
    (capture env repo_url output_dir).escaped = none ∧
    ((capture env repo_url output_dir).returned = none ∨
      (capture env repo_url output_dir).returned =
        some (screenshotPathFor output_dir repo_url)) ∧
    (processRepos output_dir items db).2 =
      items.map (fun it => (capture it.2 it.1 output_dir).returned) := by
  refine ⟨capture_escaped_none env repo_url output_dir,
    capture_returned_cases env repo_url output_dir, ?_⟩
  induction items generalizing db with
  | nil => rfl
  | cons hd tl ih =>
    rcases hd with ⟨url, e⟩
    simp only [processRepos, List.map_cons]
    rcases hr : (capture e url output_dir).returned with _ | p
    · simp [hr, ih]
    · simp [hr, ih]

/-- Indexing a list two slots from its end reads the second-to-last
element. -/
theorem getD_last_two_fst (front : List String) (a b x : String) :
    (front ++ [a, b]).getD ((front ++ [a, b]).length - 2) x = a := by
  rw [List.getD_eq_getElem?_getD, List.length_append]
  simp only [List.length_cons, List.length_nil]
  have hlen : front.length + (0 + 1 + 1) - 2 = front.length + 0 := by omega
  rw [hlen, List.getElem?_append_right (Nat.le_add_right _ _)]
  simp

/-- Indexing a list one slot from its end reads the last element. -/
theorem getD_last_two_snd (front : List String) (a b x : String) :
    (front ++ [a, b]).getD ((front ++ [a, b]).length - 1) x = b := by
  rw [List.getD_eq_getElem?_getD, List.length_append]
  simp only [List.length_cons, List.length_nil]
  have hlen : front.length + (0 + 1 + 1) - 1 = front.length + 1 := by omega
  rw [hlen, List.getElem?_append_right (Nat.le_add_right _ _)]
  simp

/-- C9: the screenshot filename is deterministic — the slug is the last two
nonempty slash-separated segments of the URL joined by an underscore, with
a filesystem-sanitized form of the whole URL as fallback when fewer than two
segments exist, and the target path is
`{destination_dir}/{slug}_readme_4x3.png`. -/
theorem c9_deterministic_filename (repo_url output_dir : String) :
    (∀ (front : List String) (a b : String),
      urlSegments repo_url = front ++ [a, b] →
      slugOf repo_url = a ++ "_" ++ b) ∧
    ((urlSegments repo_url).length < 2 →
      slugOf repo_url = sanitizeUrl repo_url) ∧
    (output_dir ≠ "" → endsWithSlash output_dir = false →
      startsWithSlash (slugOf repo_url ++ "_readme_4x3.png") = false →
      screenshotPathFor output_dir repo_url =
        output_dir ++ "/" ++ slugOf repo_url ++ "_readme_4x3.png") := by
  refine ⟨?_, ?_, ?_⟩
  · intro front a b hseg
    unfold slugOf
    rw [hseg]
    have hlen : 2 ≤ (front ++ [a, b]).length := by
      rw [List.length_append]
      simp only [List.length_cons, List.length_nil]
      omega
    rw [if_pos hlen, getD_last_two_fst, getD_last_two_snd]
  · intro hlt
    unfold slugOf
    rw [if_neg (by omega)]
  · intro hdir hslash hrel
    unfold screenshotPathFor osPathJoin
    rw [if_neg (by simp [hrel]), if_neg hdir, if_neg (by simp [hslash])]
    exact (String.append_assoc (output_dir ++ "/") (slugOf repo_url)
      "_readme_4x3.png").symm

/-- Witness for C9: the canonical GitHub URL shape takes its owner and repo
segments, a segment-poor URL falls back to the sanitized form, and the
target path lands inside the destination directory. -/
theorem c9_deterministic_filename_witness :
    slugOf "https://github.com/owner/repo" = "owner_repo" ∧
    slugOf "nopath" = "nopath" ∧
    screenshotPathFor "screenshots" "https://github.com/owner/repo" =
      "screenshots/owner_repo_readme_4x3.png" := by
  refine ⟨?_, ?_, ?_⟩
  · rw [(c9_deterministic_filename "https://github.com/owner/repo"
      "screenshots").1 ["https:", "github.com"] "owner" "repo" (by decide)]
    decide
  · rw [(c9_deterministic_filename "nopath" "screenshots").2.1 (by decide)]
    decide
  · rw [(c9_deterministic_filename "https://github.com/owner/repo"
      "screenshots").2.2 (by decide) (by decide) (by decide)]
    decide

end Scraper
